import Mathlib

/-
Verification development for the pip-services container core
(src/container/Container.go and src/v3/build/DefaultContainerFactory.go).

The lifecycle state machine of Container.go is embedded shallowly:
Go methods become pure Lean functions from a Container state to an
updated state together with the returned error value and the sequence
of log entries the call emitted through the container's logger.
Go panics are modelled by an explicit exception value (PanicVal);
the deferred recover blocks of Open and Close are modelled by the
corresponding branches of the Lean functions, so Open and Close are
total functions (no fault escapes them), exactly as the recover
handlers guarantee in the source.

The reference registry (package refer), the configuration reader
(package config) and the component factories of the components
library are collaborators whose code is not under src/; their
definitions below are modelled from the spec's contract for them and
are marked as such in their doc comments.
-/

namespace PipServices

/-- Five-segment component locator (crefer.Descriptor). Modelled from the
spec: any segment may be the wildcard token, and two locators match when
every non-wildcard segment is equal. -/
structure Descriptor where
  group : String
  type : String
  kind : String
  name : String
  version : String
deriving DecidableEq

/-- Modelled from the spec: one segment of a locator matches another when
either side is the wildcard token or both are equal. -/
def segMatch (a b : String) : Bool :=
  a == "*" || b == "*" || a == b

/-- Modelled from the spec: two locators match if every non-wildcard
segment is equal. -/
def descrMatch (a b : Descriptor) : Bool :=
  segMatch a.group b.group && segMatch a.type b.type && segMatch a.kind b.kind &&
    segMatch a.name b.name && segMatch a.version b.version

/-- One section of a container configuration (config.ComponentConfig):
either a descriptor-based entry or a factory-type entry, each with a flat
parameter set. Modelled from the spec (the config package is not under
src/). -/
inductive ComponentConfig where
  | descriptorConf (d : Descriptor) (params : List (String × String))
  | typeConf (typeName : String) (params : List (String × String))
deriving DecidableEq

/-- Ordered sequence of configuration sections (config.ContainerConfig). -/
abbrev ContainerConfig := List ComponentConfig

/-- Go error values produced by the container core: cerr.NewInvalidStateError,
the registry's build error naming the unresolved section, the configuration
reader's config error, and errors.New used by the recover blocks. -/
inductive GoError where
  | invalidState (correlationId code message : String)
  | buildError (sec : ComponentConfig)
  | configError (message : String)
  | newError (message : String)
deriving DecidableEq

/-- Value carried by a Go panic as seen by recover: an error value, a plain
string, or some other value (whose textual rendering is kept, as
cconv.StringConverter.ToString would produce it). -/
inductive PanicVal where
  | err (e : GoError)
  | str (s : String)
  | other (rendering : String)
deriving DecidableEq

/-- Behavior of one lifecycle call of a component: return nil, return an
error, or raise a runtime fault. -/
inductive Behavior where
  | ok
  | err (e : GoError)
  | panics (p : PanicVal)
deriving DecidableEq

/-- ContextInfo metadata record (info.ContextInfo): name, description and
free-form properties. -/
structure ContextInfo where
  Name : String
  Description : String
  Properties : List (String × String)
deriving DecidableEq

/-- Identity of a sub-factory registered in the composite factory; the
default bundle of src/v3/build/DefaultContainerFactory.go contributes the
first nine kinds. -/
inductive FactoryKind where
  | contextInfo
  | logging
  | counters
  | configReader
  | cache
  | credentialStore
  | discovery
  | testStub
  | custom (n : Nat)
deriving DecidableEq

/-- Component instance held by the reference registry. A component is
either a ContextInfo record (the type assertion .(*info.ContextInfo)
succeeds exactly on this constructor), the container's composite factory
(identified by the kinds of its registered sub-factories), or an ordinary
component with declared openable/closeable capabilities and the behavior
of its open and close calls. -/
inductive Component where
  | contextInfoComp (ci : ContextInfo)
  | factoryComp (kinds : List FactoryKind)
  | comp (id : Nat) (openableCap closeableCap : Bool) (openBeh closeBeh : Behavior)
deriving DecidableEq

/-- Sub-factory of the composite factory: its identity and the components
it can construct from a configuration section (first capable factory
wins). -/
structure Factory where
  kind : FactoryKind
  create : ComponentConfig → Option Component

/-- Logger handle held by the container: the null logger installed by
NewEmptyContainer, the composite logger built from a reference registry by
log.NewCompositeLoggerFromReferences, or an externally installed logger. -/
inductive Logger where
  | nullLogger
  | composite (refs : List (Descriptor × Component))
  | custom (id : Nat)
deriving DecidableEq

/-- Severity of a log entry emitted by the container. -/
inductive LogLevel where
  | traceL
  | infoL
  | errorL
  | fatalL
deriving DecidableEq

/-- One log entry emitted through the container's logger during a
lifecycle call. -/
structure LogEntry where
  level : LogLevel
  correlationId : String
  err : Option GoError
  message : String
deriving DecidableEq

/-- Ordered reference registry contents (refer.ContainerReferences):
locator/component pairs in registration order. -/
abbrev ContainerReferences := List (Descriptor × Component)

/-- Behavior of the SetReferences / UnsetReferences call of the parent
component of a nested container: it either returns or raises a fault. -/
inductive RefBeh where
  | ok
  | panics (p : PanicVal)
deriving DecidableEq

/-- Raw configuration parameters handed to Configure: either a document
that parses into a section list, or a malformed document. Modelled from
the spec (the config reader is not under src/). -/
inductive ConfigParams where
  | wellFormed (sections : ContainerConfig)
  | malformed (message : String)
deriving DecidableEq

/-- Modelled from the spec: config.ReadContainerConfigFromConfig parses
raw parameters into a container configuration, returning a ConfigError on
malformed input (and the zero-value configuration alongside it). -/
def ReadContainerConfigFromConfig (conf : ConfigParams) : ContainerConfig × Option GoError :=
  match conf with
  | .wellFormed sections => (sections, none)
  | .malformed m => ([], some (.configError m))

/-- Container state (the Container struct of src/container/Container.go):
logger, composite factory, context info, stored configuration, the current
reference registry (none exactly when the container is closed), and the
optional parent linkage of a nested container, each reduced to the
behavior of its lifecycle call. -/
structure Container where
  logger : Logger
  factories : List Factory
  info : ContextInfo
  config : ContainerConfig
  references : Option ContainerReferences
  referenceable : Option RefBeh
  unreferenceable : Option RefBeh

/-- Result of a container lifecycle call: the updated container state, the
returned error value, and the log entries emitted during the call. -/
structure OpResult where
  state : Container
  err : Option GoError
  log : List LogEntry

/-- Modelled from the spec: first sub-factory that can build the given
section wins (composite factory resolution, registration order). -/
def createFromFactories (fs : List Factory) (s : ComponentConfig) : Option Component :=
  match fs with
  | [] => none
  | f :: rest =>
    match f.create s with
    | some c => some c
    | none => createFromFactories rest s

/-- Locator under which a section's component is appended to the registry:
the section's descriptor, or for a factory-type section a locator carrying
the type hint as its name. Modelled from the spec. -/
def sectionLocator : ComponentConfig → Descriptor
  | .descriptorConf d _ => d
  | .typeConf t _ => ⟨"*", "*", "*", t, "*"⟩

/-- Modelled from the spec: bulk population of the registry from the
configuration, section by section in order, aborting on the first section
no factory can build with a build error naming that section; sections
already resolved stay appended. -/
def putFromConfigAux (fs : List Factory) (refs : ContainerReferences) :
    ContainerConfig → ContainerReferences × Option GoError
  | [] => (refs, none)
  | s :: rest =>
    match createFromFactories fs s with
    | none => (refs, some (.buildError s))
    | some c => putFromConfigAux fs (refs ++ [(sectionLocator s, c)]) rest

/-- Modelled from the spec: wildcard lookup returning the first
structurally matching entry, never an error. -/
def ContainerReferences.GetOneOptional (refs : ContainerReferences) (loc : Descriptor) :
    Option Component :=
  (refs.find? (fun e => descrMatch loc e.1)).map (fun e => e.2)

/-- Result of the Go type assertion component.(*info.ContextInfo). -/
def asContextInfo : Option Component → Option ContextInfo
  | some (.contextInfoComp ci) => some ci
  | _ => none

/-- Whether the registry's open phase considers a component openable
(IOpenable capability); plain components declare it explicitly, the
ContextInfo record and the factory do not implement it. -/
def openableOf : Component → Bool
  | .comp _ op _ _ _ => op
  | _ => false

/-- Open behavior of a component (the ContextInfo record and the factory
have no open call). -/
def openBehOf : Component → Behavior
  | .comp _ _ _ ob _ => ob
  | _ => .ok

/-- Whether the registry's close phase considers a component closeable
(ICloseable capability). -/
def closeableOf : Component → Bool
  | .comp _ _ cl _ _ => cl
  | _ => false

/-- Close behavior of a component. -/
def closeBehOf : Component → Behavior
  | .comp _ _ _ _ cb => cb
  | _ => .ok

/-- Modelled from the spec: the registry's open phase opens every openable
component in registration order, short-circuiting on the first component
error; a runtime fault raised by a component propagates to the container
boundary. -/
def openAllAux : List (Descriptor × Component) → Except PanicVal (Option GoError)
  | [] => .ok none
  | (_, c) :: rest =>
    if openableOf c then
      match openBehOf c with
      | .ok => openAllAux rest
      | .err e => .ok (some e)
      | .panics p => .error p
    else openAllAux rest

/-- Registry open phase over the registration order. -/
def ContainerReferences.openAll (refs : ContainerReferences) : Except PanicVal (Option GoError) :=
  openAllAux refs

/-- Modelled from the spec: the registry's close phase closes every
closeable component in reverse registration order, collecting errors (the
first error encountered is the one reported) while still closing the
remaining components; a runtime fault propagates to the container
boundary. -/
def closeAllAux : List (Descriptor × Component) → Except PanicVal (Option GoError)
  | [] => .ok none
  | (_, c) :: rest =>
    if closeableOf c then
      match closeBehOf c with
      | .panics p => .error p
      | .ok => closeAllAux rest
      | .err e =>
        match closeAllAux rest with
        | .error p => .error p
        | .ok _ => .ok (some e)
    else closeAllAux rest

/-- Registry close phase, performed over the reverse of the registration
order. -/
def ContainerReferences.closeAll (refs : ContainerReferences) : Except PanicVal (Option GoError) :=
  closeAllAux refs.reverse

/-- Locator pattern used by initReferences to look for an externally
supplied ContextInfo (src/container/Container.go line 159). -/
def contextInfoCheckLocator : Descriptor :=
  ⟨"pip-services", "context-info", "*", "*", "1.0"⟩

/-- Default locator under which the container registers its own
ContextInfo (src/container/Container.go line 163). -/
def contextInfoDefaultLocator : Descriptor :=
  ⟨"pip-services", "context-info", "default", "default", "1.0"⟩

/-- Locator under which the container registers its own composite factory
(src/container/Container.go line 171). -/
def containerFactoryLocator : Descriptor :=
  ⟨"pip-services", "factory", "container", "default", "1.0"⟩

/-- Container.initReferences (src/container/Container.go lines 157-174):
if no entry matches the context-info check locator, the container's own
ContextInfo is put under the default locator, otherwise the existing one
replaces the container's; the composite factory is always put under the
container factory locator. Returns the updated registry and the
container's (possibly replaced) ContextInfo. -/
def Container.initReferences (inf : ContextInfo) (factoryKinds : List FactoryKind)
    (refs : ContainerReferences) : ContainerReferences × ContextInfo :=
  match asContextInfo (ContainerReferences.GetOneOptional refs contextInfoCheckLocator) with
  | none =>
    (refs ++ [(contextInfoDefaultLocator, .contextInfoComp inf),
              (containerFactoryLocator, .factoryComp factoryKinds)], inf)
  | some existing =>
    (refs ++ [(containerFactoryLocator, .factoryComp factoryKinds)], existing)

/-- Registry produced inside Open by creating a fresh registry, seeding it
through initReferences and populating it from the stored configuration via
PutFromConfig, together with the error PutFromConfig returned
(src/container/Container.go lines 233-235). -/
def Container.seedAndPopulate (c : Container) : ContainerReferences × Option GoError :=
  putFromConfigAux c.factories
    (Container.initReferences c.info (c.factories.map Factory.kind) []).1 c.config

/-- ContextInfo after initReferences ran on the fresh registry inside Open
(src/container/Container.go line 234). -/
def Container.seededInfo (c : Container) : ContextInfo :=
  (Container.initReferences c.info (c.factories.map Factory.kind) []).2

/-- Conversion a recovered panic value undergoes in Open's deferred
recover block (src/container/Container.go lines 218-224): an error value
is kept, anything else is type-asserted to string (yielding the empty
string when the assertion fails) and wrapped with errors.New. -/
def panicToOpenErr : PanicVal → GoError
  | .err e => e
  | .str s => .newError s
  | .other _ => .newError ""

/-- Conversion a recovered panic value undergoes in Close's deferred
recover block (src/container/Container.go lines 280-285): an error value
is kept, anything else is rendered with StringConverter.ToString and
wrapped with errors.New. -/
def panicToCloseErr : PanicVal → GoError
  | .err e => e
  | .str s => .newError s
  | .other rendering => .newError rendering

/-- Container.Close (src/container/Container.go lines 271-309). A closed
container is a no-op. Otherwise the parent linkage is unset, the registry
close phase runs, and the registry reference is cleared; a runtime fault
raised anywhere in that sequence is recovered, converted and logged, but
the recover block declares its error variable with := (shadowing the
function-scope variable) and the return value is not named, so after a
fault Close returns nil and the registry reference has not been
cleared. -/
def Container.Close (c : Container) (cid : String) : OpResult :=
  match c.references with
  | none => ⟨c, none, []⟩
  | some refs =>
    let logs0 := [LogEntry.mk .traceL cid none "Stopping container"]
    match c.unreferenceable with
    | some (.panics p) =>
      ⟨c, none,
        logs0 ++ [LogEntry.mk .errorL cid (some (panicToCloseErr p)) "Failed to stop container"]⟩
    | _ =>
      match ContainerReferences.closeAll refs with
      | .error p =>
        ⟨c, none,
          logs0 ++ [LogEntry.mk .errorL cid (some (panicToCloseErr p)) "Failed to stop container"]⟩
      | .ok cerr =>
        let c2 : Container := { c with references := none }
        match cerr with
        | none => ⟨c2, none, logs0 ++ [LogEntry.mk .infoL cid none "Container stopped"]⟩
        | some e =>
          ⟨c2, some e, logs0 ++ [LogEntry.mk .errorL cid (some e) "Failed to stop container"]⟩

/-- Recover path of Open (src/container/Container.go lines 217-228): the
fault is converted to an error that becomes Open's return value, an
error-level entry is logged, and a rollback Close runs (its own returned
error is discarded). -/
def Container.openRecover (c : Container) (cid : String) (p : PanicVal)
    (logs : List LogEntry) : OpResult :=
  let e := panicToOpenErr p
  let r := c.Close cid
  ⟨r.state, some e,
    logs ++ [LogEntry.mk .errorL cid (some e) "Failed to start container"] ++ r.log⟩

/-- Container.Open (src/container/Container.go lines 208-264). An already
open container fails immediately with InvalidState ALREADY_OPENED.
Otherwise a fresh registry is created, seeded and populated from the
configuration; a population error is returned as-is (the registry
reference stays set). Then the parent linkage receives the references, a
configuration-supplied ContextInfo is looked up (first match) and adopted
if found, the logger is replaced by the composite logger over the
registry, and the registry open phase runs: its error triggers a fatal log
and a rollback Close; a runtime fault anywhere after the guard is
recovered, converted, logged and followed by a rollback Close. -/
def Container.Open (c : Container) (cid : String) : OpResult :=
  match c.references with
  | some _ => ⟨c, some (.invalidState cid "ALREADY_OPENED" "Container was already opened"), []⟩
  | none =>
    let logs0 := [LogEntry.mk .traceL cid none "Starting container."]
    let pop := c.seedAndPopulate
    let c2 : Container := { c with references := some pop.1, info := c.seededInfo }
    match pop.2 with
    | some e => ⟨c2, some e, logs0⟩
    | none =>
      match c.referenceable with
      | some (.panics p) => Container.openRecover c2 cid p logs0
      | _ =>
        let inf2 :=
          match asContextInfo
              (ContainerReferences.GetOneOptional pop.1 ⟨"*", "context-info", "*", "*", "*"⟩) with
          | some i => i
          | none => c2.info
        let c3 : Container := { c2 with info := inf2, logger := .composite pop.1 }
        match ContainerReferences.openAll pop.1 with
        | .error p => Container.openRecover c3 cid p logs0
        | .ok none => ⟨c3, none, logs0 ++ [LogEntry.mk .infoL cid none "Container started"]⟩
        | .ok (some e) =>
          let r := c3.Close cid
          ⟨r.state, some e,
            logs0 ++ [LogEntry.mk .fatalL cid (some e) "Failed to start container"] ++ r.log⟩

/-- Container.IsOpen (src/container/Container.go lines 199-201): true iff
the reference registry is set. -/
def Container.IsOpen (c : Container) : Bool :=
  c.references.isSome

/-- Container.Configure (src/container/Container.go lines 136-138): parses
the parameters with ReadContainerConfigFromConfig, stores the parsed
configuration and discards the error with the blank identifier; nothing is
returned and nothing is logged (the empty log trace of the call is made
explicit in the result). -/
def Container.Configure (c : Container) (conf : ConfigParams) : Container × List LogEntry :=
  ({ c with config := (ReadContainerConfigFromConfig conf).1 }, [])

/-- Container.SetLogger (src/container/Container.go lines 180-182). -/
def Container.SetLogger (c : Container) (l : Logger) : Container :=
  { c with logger := l }

/-- Container.AddFactory (src/container/Container.go lines 192-194):
appends a sub-factory to the composite factory. -/
def Container.AddFactory (c : Container) (f : Factory) : Container :=
  { c with factories := c.factories ++ [f] }

/-- info.NewContextInfo: zero-valued metadata record. -/
def NewContextInfo : ContextInfo := ⟨"", "", []⟩

/-- Modelled from the spec: the default info factory of the components
library builds a ContextInfo record from a pip-services/context-info
section, taking name and description from the parameters. -/
def getParam (ps : List (String × String)) (k : String) : String :=
  ((ps.find? (fun e => e.1 == k)).map (fun e => e.2)).getD ""

/-- Modelled from the spec: sub-factory for context-info components. -/
def defaultInfoFactory : Factory :=
  { kind := .contextInfo,
    create := fun s =>
      match s with
      | .descriptorConf d params =>
        if d.group == "pip-services" && d.type == "context-info" then
          some (.contextInfoComp ⟨getParam params "name", getParam params "description", params⟩)
        else none
      | .typeConf _ _ => none }

/-- Modelled from the spec: a default sub-factory of the components
library handling one well-known infrastructure component type within the
pip-services group. -/
def simpleFactory (fk : FactoryKind) (typeName : String) (cid : Nat) : Factory :=
  { kind := fk,
    create := fun s =>
      match s with
      | .descriptorConf d _ =>
        if d.group == "pip-services" && d.type == typeName then
          some (.comp cid false false .ok .ok)
        else none
      | .typeConf _ _ => none }

/-- NewDefaultContainerFactory (src/v3/build/DefaultContainerFactory.go
lines 20-34): the composite factory with its nine sub-factories added in
source order — info, logger, counters, config reader, cache, credential
store, discovery, logger again, test. -/
def NewDefaultContainerFactory : List Factory :=
  [defaultInfoFactory,
   simpleFactory .logging "logger" 1,
   simpleFactory .counters "counters" 2,
   simpleFactory .configReader "config-reader" 3,
   simpleFactory .cache "cache" 4,
   simpleFactory .credentialStore "credential-store" 5,
   simpleFactory .discovery "discovery" 6,
   simpleFactory .logging "logger" 1,
   simpleFactory .testStub "test" 7]

/-- NewEmptyContainer (src/container/Container.go lines 87-93): null
logger, default factory bundle, fresh ContextInfo; everything else is
zero-valued (no configuration, no registry, no parent linkage). -/
def NewEmptyContainer : Container :=
  { logger := .nullLogger,
    factories := NewDefaultContainerFactory,
    info := NewContextInfo,
    config := [],
    references := none,
    referenceable := none,
    unreferenceable := none }

/-- NewContainer (src/container/Container.go lines 102-109): empty
container with name and description set on its ContextInfo. -/
def NewContainer (name description : String) : Container :=
  { NewEmptyContainer with info := ⟨name, description, []⟩ }

/-- InheritContainer (src/container/Container.go lines 120-130): empty
container with name, description and the parent linkage set. -/
def InheritContainer (name description : String) (rb : RefBeh) (ub : Option RefBeh) : Container :=
  { NewEmptyContainer with
    info := ⟨name, description, []⟩,
    referenceable := some rb,
    unreferenceable := ub }

/-- Sequence of Configure calls, applied left to right. -/
def configureAll (c : Container) : List ConfigParams → Container
  | [] => c
  | p :: rest => configureAll (c.Configure p).1 rest

/-- Configuration section whose locator no registered factory can build
(its group is outside every default factory's scope). -/
def unresolvableSection : ComponentConfig :=
  .descriptorConf ⟨"mygroup", "mycomponent", "default", "default", "1.0"⟩ []

/-- Fresh container configured with a single unresolvable section. -/
def unresolvableConfigContainer : Container :=
  { NewEmptyContainer with config := [unresolvableSection] }

/-- Open container holding a single closeable component whose close call
raises a runtime fault carrying a plain string. -/
def closePanicRefs : ContainerReferences :=
  [(⟨"beh", "worker", "default", "a", "1.0"⟩,
    .comp 200 true true .ok (.panics (.str "close fault")))]

/-- Container currently open on closePanicRefs. -/
def closePanicContainer : Container :=
  { NewEmptyContainer with references := some closePanicRefs }

/-- Open container holding a single closeable component whose close call
returns an error value (no fault). -/
def erroringCloseRefs : ContainerReferences :=
  [(⟨"beh", "worker", "default", "b", "1.0"⟩,
    .comp 201 true true .ok (.err (.newError "close failed")))]

/-- Container currently open on erroringCloseRefs. -/
def erroringCloseContainer : Container :=
  { NewEmptyContainer with references := some erroringCloseRefs }

/-- Open container holding a single closeable component whose close call
raises a runtime fault carrying an error value. -/
def closePanicErrRefs : ContainerReferences :=
  [(⟨"beh", "worker", "default", "c", "1.0"⟩,
    .comp 202 true true .ok (.panics (.err (.newError "boom"))))]

/-- Container currently open on closePanicErrRefs. -/
def closePanicErrContainer : Container :=
  { NewEmptyContainer with references := some closePanicErrRefs }

/-- Test factory building an openable and closeable component with the
given open and close behaviors from any section in the beh group. -/
def behaviorFactory (ob cb : Behavior) : Factory :=
  { kind := .custom 0,
    create := fun s =>
      match s with
      | .descriptorConf d _ =>
        if d.group == "beh" then some (.comp 100 true true ob cb) else none
      | .typeConf _ _ => none }

/-- Configuration section resolved by behaviorFactory. -/
def behSection : ComponentConfig :=
  .descriptorConf ⟨"beh", "worker", "default", "w", "1.0"⟩ []

/-- Fresh container whose single configured component raises a fault both
when opened and when closed. -/
def doubleFaultContainer : Container :=
  { NewEmptyContainer.AddFactory
      (behaviorFactory (.panics (.str "open fault")) (.panics (.str "close fault"))) with
    config := [behSection] }

/-- Fresh container whose single configured component raises a fault when
opened but closes normally during the rollback. -/
def rollbackOkContainer : Container :=
  { NewEmptyContainer.AddFactory (behaviorFactory (.panics (.str "open fault")) .ok) with
    config := [behSection] }

/-- Container that is already open (on an empty registry). -/
def alreadyOpenContainer : Container :=
  { NewEmptyContainer with references := some [] }

/-- Configuration section supplying an external ContextInfo through the
default info factory. -/
def externalInfoSection : ComponentConfig :=
  .descriptorConf ⟨"pip-services", "context-info", "custom", "ext", "1.0"⟩
    [("name", "External"), ("description", "supplied")]

/-- Fresh container whose configuration supplies an external ContextInfo. -/
def externalInfoContainer : Container :=
  { NewContainer "own" "container" with config := [externalInfoSection] }

/-- Fresh container with an empty configuration. -/
def plainContainer : Container := NewContainer "plain" "demo"

/-- Fresh container with an externally installed logger. -/
def customLoggerContainer : Container :=
  (NewContainer "n" "d").SetLogger (.custom 5)

theorem putFromConfigAux_append (fs : List Factory) (cfg : ContainerConfig)
    (refs : ContainerReferences) :
    (putFromConfigAux fs refs cfg).1 = refs ++ (putFromConfigAux fs [] cfg).1 := by
  induction cfg generalizing refs with
  | nil => simp [putFromConfigAux]
  | cons s rest ih =>
    simp only [putFromConfigAux]
    rcases hcr : createFromFactories fs s with _ | comp
    · simp
    · dsimp only
      rw [ih (refs ++ [(sectionLocator s, comp)]), ih ([] ++ [(sectionLocator s, comp)])]
      simp

theorem seedAndPopulate_head (c : Container) :
    (c.seedAndPopulate).1 =
      [(contextInfoDefaultLocator, .contextInfoComp c.info),
       (containerFactoryLocator, .factoryComp (c.factories.map Factory.kind))] ++
      (putFromConfigAux c.factories [] c.config).1 := by
  unfold Container.seedAndPopulate
  rw [putFromConfigAux_append]
  rfl

/-- C1: a configuration section unresolvable by every registered factory
makes Open return the build error naming it, but — contrary to the claim —
the container does not end Closed: Open returns that error before the
rollback branch (src/container/Container.go lines 235-238 return
immediately, and neither the deferred recover nor any Close runs), so the
reference registry stays set, IsOpen() is true, and the partially
populated registry remains reachable. -/
theorem open_buildError_leaves_container_open :
    (unresolvableConfigContainer.Open "123").err = some (.buildError unresolvableSection) ∧
    (unresolvableConfigContainer.Open "123").state.IsOpen = true := by decide

/-- C2 counterexample: an open container whose single component's close
call raises a runtime fault; after Close returns, IsOpen() is still true,
because the fault unwinds past the c.references = nil assignment
(src/container/Container.go line 300) and the deferred recover only
logs. -/
theorem close_fault_keeps_container_open :
    closePanicContainer.IsOpen = true ∧
    (closePanicContainer.Close "77").state.IsOpen = true := by decide

/-- C2 amended: after any call to Close on an open container whose close
phase runs to completion — with or without component-level error values —
the registry reference is cleared and IsOpen() is false, and the
component-level error is Close's return value; a close phase interrupted
by a runtime fault does not clear the registry reference. -/
theorem close_completion_clears_references (c : Container) (refs : ContainerReferences)
    (cid : String) (oerr : Option GoError)
    (h : c.references = some refs)
    (hu : c.unreferenceable = none ∨ c.unreferenceable = some .ok)
    (hc : ContainerReferences.closeAll refs = .ok oerr) :
    (c.Close cid).state.references = none ∧ (c.Close cid).err = oerr := by
  unfold Container.Close
  rw [h]
  rcases hu with hu | hu <;> rw [hu] <;> dsimp only <;> rw [hc] <;>
    rcases oerr with _ | e <;> simp

/-- C2 witness: a completed close phase with a component-level error still
clears the registry and returns that error. -/
theorem close_completion_clears_references_witness :
    (erroringCloseContainer.Close "9").state.references = none ∧
    (erroringCloseContainer.Close "9").err = some (.newError "close failed") :=
  close_completion_clears_references erroringCloseContainer erroringCloseRefs "9"
    (some (.newError "close failed")) rfl (Or.inl rfl) rfl

/-- C3: a runtime fault raised in a component's close path is caught at
the container boundary and logged, and Close returns normally — but the
recovered error is not Close's return value: the deferred recover block
declares its error variable with := (shadowing the function-scope
variable, src/container/Container.go line 281) and the return value is not
named, so Close returns nil. -/
theorem close_fault_logged_but_not_returned :
    (closePanicErrContainer.Close "42").err = none ∧
    LogEntry.mk .errorL "42" (some (.newError "boom")) "Failed to stop container" ∈
      (closePanicErrContainer.Close "42").log := by decide

/-- C4 counterexample: a component that raises a fault both in its open
and its close path; Open catches the open fault and returns it as an
error, but the rollback Close is itself interrupted by the close fault, so
the container does not end Closed. -/
theorem open_fault_with_close_fault_leaves_open :
    (doubleFaultContainer.Open "5").err = some (.newError "open fault") ∧
    (doubleFaultContainer.Open "5").state.IsOpen = true := by decide

/-- C4 amended: a runtime fault raised inside a component's open path
during Open is caught, converted into the error value Open returns, logged
at error level, and triggers a rollback Close; the container ends Closed
provided the rollback close phase itself raises no runtime fault. -/
theorem open_fault_recovered_and_rolled_back (c : Container) (cid : String) (p : PanicVal)
    (oerr : Option GoError)
    (hclosed : c.references = none)
    (hpop : (c.seedAndPopulate).2 = none)
    (hr : c.referenceable = none ∨ c.referenceable = some .ok)
    (hopen : ContainerReferences.openAll (c.seedAndPopulate).1 = .error p)
    (hu : c.unreferenceable = none ∨ c.unreferenceable = some .ok)
    (hclose : ContainerReferences.closeAll (c.seedAndPopulate).1 = .ok oerr) :
    (c.Open cid).err = some (panicToOpenErr p) ∧
    (c.Open cid).state.references = none ∧
    LogEntry.mk .errorL cid (some (panicToOpenErr p)) "Failed to start container" ∈
      (c.Open cid).log := by
  unfold Container.Open
  rw [hclosed]
  dsimp only
  rw [hpop]
  dsimp only
  rcases hr with hr | hr <;> rw [hr] <;> dsimp only <;> rw [hopen] <;>
    unfold Container.openRecover Container.Close <;> dsimp only <;>
    rcases hu with hu | hu <;> rw [hu] <;> dsimp only <;> rw [hclose] <;>
    rcases oerr with _ | e <;> simp

/-- C4 witness: an open-path fault on a container whose rollback close
completes; the fault is returned as Open's error, logged, and the
container ends Closed. -/
theorem open_fault_recovered_and_rolled_back_witness :
    (rollbackOkContainer.Open "5").err = some (panicToOpenErr (.str "open fault")) ∧
    (rollbackOkContainer.Open "5").state.references = none ∧
    LogEntry.mk .errorL "5" (some (panicToOpenErr (.str "open fault")))
      "Failed to start container" ∈ (rollbackOkContainer.Open "5").log :=
  open_fault_recovered_and_rolled_back rollbackOkContainer "5" (.str "open fault") none
    rfl (by decide) (Or.inl rfl) rfl (Or.inl rfl) rfl

/-- C5: Open on a container whose reference registry is set returns the
InvalidState ALREADY_OPENED error, performs no other action — the whole
container state (registry, components, configuration, logger, ContextInfo)
is returned unchanged — and logs nothing. -/
theorem open_already_opened (c : Container) (cid : String) (h : c.IsOpen = true) :
    c.Open cid =
      ⟨c, some (.invalidState cid "ALREADY_OPENED" "Container was already opened"), []⟩ := by
  unfold Container.IsOpen at h
  rcases hr : c.references with _ | r
  · rw [hr] at h; simp at h
  · unfold Container.Open
    rw [hr]

/-- C5 witness: Open on a concrete already-open container. -/
theorem open_already_opened_witness :
    alreadyOpenContainer.Open "1" =
      ⟨alreadyOpenContainer,
       some (.invalidState "1" "ALREADY_OPENED" "Container was already opened"), []⟩ :=
  open_already_opened alreadyOpenContainer "1" rfl

/-- C6 counterexample: malformed configuration parameters produce a
ConfigError inside Configure, yet Configure emits no log entry, has no
return value through which to surface it, and stores the zero-value parse
result — the error is silently discarded (src/container/Container.go line
137 assigns it to the blank identifier). -/
theorem configure_swallows_config_error :
    (ReadContainerConfigFromConfig (.malformed "bad document")).2 =
      some (.configError "bad document") ∧
    (NewEmptyContainer.Configure (.malformed "bad document")).2 = [] ∧
    (NewEmptyContainer.Configure (.malformed "bad document")).1.config = [] := by decide

/-- C6 amended: when Configure is given malformed configuration
parameters, the resulting ConfigError is silently discarded — Configure
returns nothing, logs nothing, and stores the zero-value configuration
that accompanies the error. -/
theorem configure_discards_parse_error (c : Container) (m : String) :
    (ReadContainerConfigFromConfig (.malformed m)).2 = some (.configError m) ∧
    (c.Configure (.malformed m)).2 = [] ∧
    (c.Configure (.malformed m)).1.config = [] :=
  ⟨rfl, rfl, rfl⟩

/-- C7 counterexample: a configuration-supplied ContextInfo ends up in the
populated registry (appended after the seeded entries) and matches the
wildcard pattern, yet after a successful Open the container's ContextInfo
is still its own default — the post-population wildcard lookup returns the
first match, which is the seeded default entry. -/
theorem external_context_info_not_adopted :
    (externalInfoContainer.Open "7").err = none ∧
    (⟨"pip-services", "context-info", "custom", "ext", "1.0"⟩,
      Component.contextInfoComp
        ⟨"External", "supplied", [("name", "External"), ("description", "supplied")]⟩) ∈
      ((externalInfoContainer.Open "7").state.references).getD [] ∧
    (externalInfoContainer.Open "7").state.info = ContextInfo.mk "own" "container" [] := by decide

/-- C7 amended: during every Open of a closed container the fresh registry
is seeded with the container's own ContextInfo under the default locator
(the wildcard check finds nothing in the fresh registry) followed by the
container's ComponentFactory under the container factory locator, before
the configured components; and the post-population wildcard ContextInfo
lookup returns its first match — the seeded default — so the container's
ContextInfo remains its own even when the populated registry later
supplies another matching ContextInfo. -/
theorem open_seeds_self_and_factory (c : Container) (cid : String)
    (hclosed : c.references = none)
    (hpop : (c.seedAndPopulate).2 = none)
    (hr : c.referenceable = none ∨ c.referenceable = some .ok)
    (hopen : ContainerReferences.openAll (c.seedAndPopulate).1 = .ok none) :
    (c.Open cid).err = none ∧
    (c.Open cid).state.info = c.info ∧
    (c.Open cid).state.references =
      some ([(contextInfoDefaultLocator, .contextInfoComp c.info),
             (containerFactoryLocator, .factoryComp (c.factories.map Factory.kind))] ++
            (putFromConfigAux c.factories [] c.config).1) := by
  have hinfo :
      asContextInfo (ContainerReferences.GetOneOptional (c.seedAndPopulate).1
        ⟨"*", "context-info", "*", "*", "*"⟩) = some c.info := by
    rw [seedAndPopulate_head]
    simp [ContainerReferences.GetOneOptional, List.find?, descrMatch, segMatch,
      contextInfoDefaultLocator, asContextInfo]
  unfold Container.Open
  rw [hclosed]
  dsimp only
  rw [hpop]
  dsimp only
  rcases hr with hr | hr <;> rw [hr] <;> dsimp only <;> rw [hopen, hinfo] <;> dsimp only <;>
    exact ⟨rfl, rfl, by rw [← seedAndPopulate_head]⟩

/-- C7 witness: a successful Open of a plain container exhibits the seeded
registry prefix and the unchanged ContextInfo. -/
theorem open_seeds_self_and_factory_witness :
    (plainContainer.Open "2").err = none ∧
    (plainContainer.Open "2").state.info = plainContainer.info ∧
    (plainContainer.Open "2").state.references =
      some ([(contextInfoDefaultLocator, .contextInfoComp plainContainer.info),
             (containerFactoryLocator,
              .factoryComp (plainContainer.factories.map Factory.kind))] ++
            (putFromConfigAux plainContainer.factories [] plainContainer.config).1) :=
  open_seeds_self_and_factory plainContainer "2" rfl rfl (Or.inl rfl) rfl

/-- C8: the default container factory bundle registers exactly nine
sub-factories, in source order — context-info, logging, counters,
configuration-reader, cache, credential-store, discovery, logging a second
time, test — with the duplicate logging registration preserved. -/
theorem default_container_factory_registers_nine :
    NewDefaultContainerFactory.map Factory.kind =
      [.contextInfo, .logging, .counters, .configReader, .cache, .credentialStore, .discovery,
       .logging, .testStub] ∧
    NewDefaultContainerFactory.length = 9 :=
  ⟨rfl, rfl⟩

/-- C9: for any sequence of Configure calls, the resulting container
equals the one produced by the last call alone — the stored configuration
is the parse of the last call's parameters, with no merging — so any Open
that follows sees only the last call's sections. -/
theorem configure_last_wins (c : Container) (ps : List ConfigParams) (p : ConfigParams) :
    configureAll c (ps ++ [p]) = (c.Configure p).1 ∧
    (c.Configure p).1.config = (ReadContainerConfigFromConfig p).1 := by
  refine ⟨?_, rfl⟩
  induction ps generalizing c with
  | nil => rfl
  | cons q rest ih => exact ih (c.Configure q).1

/-- C10: after a successful Open the container's logger is the composite
logger built from the populated reference registry, whatever logger —
null, or installed through SetLogger — was in place before. -/
theorem successful_open_installs_composite_logger (c : Container) (cid : String)
    (hclosed : c.references = none)
    (hsucc : (c.Open cid).err = none) :
    (c.Open cid).state.references = some (c.seedAndPopulate).1 ∧
    (c.Open cid).state.logger = .composite (c.seedAndPopulate).1 := by
  unfold Container.Open at hsucc ⊢
  rw [hclosed] at hsucc ⊢
  dsimp only at hsucc ⊢
  rcases hpop : (c.seedAndPopulate).2 with _ | e
  · rw [hpop] at hsucc
    dsimp only at hsucc ⊢
    rcases href : c.referenceable with _ | rb
    · rw [href] at hsucc
      dsimp only at hsucc ⊢
      rcases hopen : ContainerReferences.openAll (c.seedAndPopulate).1 with p | oerr
      · rw [hopen] at hsucc
        simp [Container.openRecover] at hsucc
      · rw [hopen] at hsucc
        rcases oerr with _ | e
        · simp
        · simp at hsucc
    · rcases rb with _ | p
      · rw [href] at hsucc
        dsimp only at hsucc ⊢
        rcases hopen : ContainerReferences.openAll (c.seedAndPopulate).1 with p | oerr
        · rw [hopen] at hsucc
          simp [Container.openRecover] at hsucc
        · rw [hopen] at hsucc
          rcases oerr with _ | e
          · simp
          · simp at hsucc
      · rw [href] at hsucc
        simp [Container.openRecover] at hsucc
  · rw [hpop] at hsucc
    simp at hsucc

/-- C10 witness: a successful Open of a container carrying an externally
installed logger ends with the registry-derived composite logger. -/
theorem successful_open_installs_composite_logger_witness :
    (customLoggerContainer.Open "t").state.references =
      some (customLoggerContainer.seedAndPopulate).1 ∧
    (customLoggerContainer.Open "t").state.logger =
      .composite (customLoggerContainer.seedAndPopulate).1 :=
  successful_open_installs_composite_logger customLoggerContainer "t" rfl (by decide)

end PipServices
